import Mathlib

/-!
Verification of the SayaLens offline-safe version/kill-switch controller
(`src/main/modules/versionControl.ts`) against its specification.

The controller is embedded shallowly:
* JavaScript runtime values coming from `JSON.parse` / `response.json()` are
  modelled as records of `Option` fields (`none` = the property is absent /
  `undefined`); property access on a possibly-absent object value that would
  raise a `TypeError` at runtime is modelled with `Except`.
* `Date.now()` readings, the network outcome, the cache-file state and the
  host-supplied app version are passed in explicitly, so every function is a
  pure function of its inputs.
* File I/O is modelled as a key-value cell holding the cache-file state
  (the spec itself treats the cache file as a key-value store interface);
  `JSON.stringify` followed by `JSON.parse` on a plain record is the identity,
  so a successful write stores the record itself.
* Machine numbers (millisecond timestamps, cache ages) are `Int`.
-/

deriving instance DecidableEq for Except

namespace SayaLens

/-- Model of JavaScript `String.prototype.split` with separator `"."`:
splits at every dot, keeping empty segments, and returns `[""]` on the empty
string. Structural recursion over the character list with an accumulator. -/
def jsSplitDotAux : List Char → List Char → List String
  | [], acc => [String.mk acc.reverse]
  | c :: rest, acc =>
    if c = '.' then String.mk acc.reverse :: jsSplitDotAux rest []
    else jsSplitDotAux rest (c :: acc)

/-- `s.split('.')` from the source, as used on version strings. -/
def jsSplitDot (s : String) : List String := jsSplitDotAux s.toList []

/-- Value of a decimal digit run, most significant first. -/
def digitsToNat (cs : List Char) : Nat := cs.foldl (fun n c => n * 10 + (c.toNat - 48)) 0

/-- Model of JavaScript `Number(s)` on the strings that occur as dot-split
version components: `""` coerces to `0`, a run of decimal digits (optionally
signed) to its integer value, and anything else to `NaN` (`none`).
Exotic `Number` forms (whitespace padding, hex, exponents, `Infinity`,
fractional values) cannot arise from dot-splitting the version strings this
controller handles and are mapped to `none` like any other non-numeric text. -/
def jsNumberOpt (s : String) : Option Int :=
  let cs := s.toList
  if cs = [] then some 0
  else if cs.all Char.isDigit then some ((digitsToNat cs : Int))
  else if cs.head? = some '-' ∧ cs.tail ≠ [] ∧ cs.tail.all Char.isDigit then
    some (-(digitsToNat cs.tail : Int))
  else if cs.head? = some '+' ∧ cs.tail ≠ [] ∧ cs.tail.all Char.isDigit then
    some ((digitsToNat cs.tail : Int))
  else none

/-- A non-empty string of decimal digits. -/
def isDigitString (s : String) : Bool := s.toList ≠ [] && s.toList.all Char.isDigit

/-- `current.split('.').map(Number)` — the parsed component list of a version
string; `none` stands for `NaN`. -/
def versionParts (s : String) : List (Option Int) := (jsSplitDot s).map jsNumberOpt

/-- `parts[i] || 0` from the source: an out-of-range index (`undefined`), a
`NaN` component, and an explicit `0` all yield `0`. -/
def partOr0 (ps : List (Option Int)) (i : Nat) : Int := ((ps.get? i).join).getD 0

/-- The three components the comparison loop actually inspects. -/
def versionTriple (s : String) : Int × Int × Int :=
  (partOr0 (versionParts s) 0, partOr0 (versionParts s) 1, partOr0 (versionParts s) 2)

/-- `VersionController.isVersionBelow`: the `for (i = 0..2)` loop unrolled;
the first strictly different component decides, all-equal gives `false`.
The body of the source cannot actually raise (both arguments are strings and
`Number` never throws), so the surrounding `try/catch` has no effect and the
embedding is the total function below. -/
def isVersionBelow (current minimum : String) : Bool :=
  let currentParts := versionParts current
  let minimumParts := versionParts minimum
  if partOr0 currentParts 0 < partOr0 minimumParts 0 then true
  else if partOr0 currentParts 0 > partOr0 minimumParts 0 then false
  else if partOr0 currentParts 1 < partOr0 minimumParts 1 then true
  else if partOr0 currentParts 1 > partOr0 minimumParts 1 then false
  else if partOr0 currentParts 2 < partOr0 minimumParts 2 then true
  else if partOr0 currentParts 2 > partOr0 minimumParts 2 then false
  else false

/-- `VersionController.isVersionNewer`: same unrolled loop with the opposite
orientation (`remote > local` decides `true` first). -/
def isVersionNewer (remote local_ : String) : Bool :=
  let remoteParts := versionParts remote
  let localParts := versionParts local_
  if partOr0 remoteParts 0 > partOr0 localParts 0 then true
  else if partOr0 remoteParts 0 < partOr0 localParts 0 then false
  else if partOr0 remoteParts 1 > partOr0 localParts 1 then true
  else if partOr0 remoteParts 1 < partOr0 localParts 1 then false
  else if partOr0 remoteParts 2 > partOr0 localParts 2 then true
  else if partOr0 remoteParts 2 < partOr0 localParts 2 then false
  else false

/-- Strict lexicographic order on component triples (the specification's
"lexicographic-by-component comparison over the 3-tuple"). -/
def lexLtB (x y : Int × Int × Int) : Bool :=
  decide (x.1 < y.1 ∨ (x.1 = y.1 ∧ (x.2.1 < y.2.1 ∨ (x.2.1 = y.2.1 ∧ x.2.2 < y.2.2))))

/-- The four result statuses of the controller. -/
inductive Status where
  | allowed
  | deprecated
  | force_update
  | blocked
deriving DecidableEq, Repr

/-- The `VersionConfig` interface of the source: a well-typed policy document
(every field present with its declared type). -/
structure VersionConfig where
  minimumVersion : String
  latestVersion : String
  isKillSwitchActive : Bool
  deprecatedVersions : List String
  forceUpdateVersions : List String
  updateMessage : String
  downloadUrl : String
  killSwitchMessage : Option String
  lastUpdated : Int
deriving DecidableEq, Repr

/-- A policy document as it actually arrives from `JSON.parse` /
`response.json()`: every property may be absent (`none` = `undefined`).
A `deprecatedVersions` / `forceUpdateVersions` value that is not an array of
strings behaves like an absent one for the purposes modelled here (property
access yielding a value without `.includes` raises just as `undefined` does). -/
structure DynConfig where
  minimumVersion : Option String
  latestVersion : Option String
  isKillSwitchActive : Option Bool
  deprecatedVersions : Option (List String)
  forceUpdateVersions : Option (List String)
  updateMessage : Option String
  downloadUrl : Option String
  killSwitchMessage : Option String
  lastUpdated : Option Int
deriving DecidableEq, Repr

/-- View of a well-typed policy as a runtime value (every property present). -/
def toDyn (c : VersionConfig) : DynConfig :=
  ⟨some c.minimumVersion, some c.latestVersion, some c.isKillSwitchActive,
   some c.deprecatedVersions, some c.forceUpdateVersions, some c.updateMessage,
   some c.downloadUrl, c.killSwitchMessage, some c.lastUpdated⟩

/-- The hardcoded fallback policy (`fallbackConfig` class field); its
`lastUpdated` is the `Date.now()` reading taken when the controller was
constructed, passed in as `t0`. -/
def fallbackConfig (t0 : Int) : VersionConfig :=
  ⟨"1.0.0", "1.0.0", false, [], [],
   "Please update to the latest version",
   "https://github.com/nafplann/sayalens/releases/latest",
   none, t0⟩

/-- The parsed contents of the cache file (`CachedVersionData` as it comes
back from `JSON.parse`, before any validation). -/
structure DynCachedData where
  config : Option DynConfig
  lastFetched : Option Int
  isOfflineMode : Option Bool
deriving DecidableEq, Repr

/-- The observable states of the cache file. -/
inductive CacheFileState where
  | absent
  | unreadable
  | notJson
  | parsed (record : DynCachedData)
deriving DecidableEq, Repr

/-- JavaScript truthiness of `cached.lastFetched` (a number): `undefined`,
`0` and `NaN` are falsy; modelling timestamps as `Int`, that is
"present and nonzero". -/
def truthyInt : Option Int → Bool
  | none => false
  | some n => n != 0

/-- JavaScript truthiness of `cached.config` (an object value is truthy). -/
def truthyConfig : Option DynConfig → Bool
  | none => false
  | some _ => true

/-- `VersionController.getCachedConfig`: return the parsed record when the
file exists, parses, and `cached.config && cached.lastFetched` is truthy;
otherwise (missing file, read error, parse error, failed truthiness check)
return the fallback record stamped with the current `Date.now()` reading
`now` and `isOfflineMode = true`. -/
def getCachedConfig (s : CacheFileState) (fallback : DynConfig) (now : Int) : DynCachedData :=
  match s with
  | .parsed r =>
    if truthyConfig r.config && truthyInt r.lastFetched then r
    else ⟨some fallback, some now, some true⟩
  | _ => ⟨some fallback, some now, some true⟩

/-- `VersionController.cacheConfig`: best-effort overwrite of the cache file
with `{config, lastFetched: Date.now(), isOfflineMode: false}`; a write
failure is swallowed and leaves the file unchanged. -/
def cacheConfig (config : DynConfig) (now : Int) (writeSucceeds : Bool)
    (s : CacheFileState) : CacheFileState :=
  if writeSucceeds then .parsed ⟨some config, some now, some false⟩ else s

/-- `VersionController.isValidVersionFormat`: the regex
`^\d+\.\d+\.\d+$`, i.e. exactly three dot-separated non-empty digit runs. -/
def isValidVersionFormat (version : String) : Bool :=
  match jsSplitDot version with
  | [a, b, c] => isDigitString a && isDigitString b && isDigitString c
  | _ => false

/-- `VersionController.validateConfig`: throw when any of the five required
fields is `undefined`, then throw when `minimumVersion` or `latestVersion`
fails the version-format regex. No other field is inspected. -/
def validateConfig (config : DynConfig) : Except String Unit :=
  let missing :=
    ([("minimumVersion", config.minimumVersion.isNone),
      ("latestVersion", config.latestVersion.isNone),
      ("isKillSwitchActive", config.isKillSwitchActive.isNone),
      ("updateMessage", config.updateMessage.isNone),
      ("downloadUrl", config.downloadUrl.isNone)].filter (fun p => p.2)).map (fun p => p.1)
  if missing ≠ [] then
    .error ("Invalid config: missing fields " ++ String.intercalate ", " missing)
  else if !(isValidVersionFormat (config.minimumVersion.getD "")
            && isValidVersionFormat (config.latestVersion.getD "")) then
    .error "Invalid version format in config"
  else
    .ok ()

/-- Outcome of the HTTP fetch: `failure` covers network errors, the abort
timeout, non-2xx responses, and bodies whose `response.json()` call fails or
yields a non-object (assigning `config.lastUpdated` on those throws inside
the same `try`); `success body` is a parsed JSON object body. -/
inductive FetchOutcome where
  | failure (msg : String)
  | success (body : DynConfig)
deriving DecidableEq, Repr

/-- `VersionController.fetchConfigWithTimeout`: on a delivered body, stamp
`lastUpdated = Date.now()` and validate; a validation throw propagates to the
caller exactly like a network failure. -/
def fetchConfigWithTimeout (outcome : FetchOutcome) (now : Int) : Except String DynConfig :=
  match outcome with
  | .failure msg => .error msg
  | .success body =>
    let config : DynConfig := { body with lastUpdated := some now }
    match validateConfig config with
    | .ok _ => .ok config
    | .error e => .error e

/-- `VersionController.getCurrentVersion`: the host-supplied app version,
with `"1.0.0"` when the accessor is unavailable or throws. -/
def getCurrentVersion (hostVersion : Option String) : String := hostVersion.getD "1.0.0"

/-- `isVersionBelow(currentVersion, config.minimumVersion)` as called from
`determineVersionStatus` on a runtime config value: when `minimumVersion` is
`undefined`, `minimum.split` throws inside `isVersionBelow`, the `catch`
there returns the safe default `false`. -/
def isVersionBelowOpt (current : String) (minimum : Option String) : Bool :=
  match minimum with
  | none => false
  | some m => isVersionBelow current m

/-- `VersionController.determineVersionStatus` over a runtime config value.
`Except.error` marks the `TypeError` raised by calling `.includes` on an
absent `forceUpdateVersions` / `deprecatedVersions` property — this function
has no `try/catch` of its own. Thresholds are milliseconds. -/
def determineVersionStatus (currentVersion : String) (config : DynConfig)
    (isOffline : Bool) (cacheAge : Int) : Except String Status :=
  if isOffline ∧ cacheAge > 6 * 60 * 60 * 1000 then
    .ok .allowed
  else if config.isKillSwitchActive.getD false ∧ ¬ isOffline then
    .ok .blocked
  else
    match config.forceUpdateVersions with
    | none => .error "TypeError: cannot read includes of undefined forceUpdateVersions"
    | some forceList =>
      if forceList.contains currentVersion then
        if isOffline ∧ cacheAge > 60 * 60 * 1000 then .ok .deprecated
        else .ok .force_update
      else if isVersionBelowOpt currentVersion config.minimumVersion then
        if isOffline then .ok .deprecated else .ok .blocked
      else
        match config.deprecatedVersions with
        | none => .error "TypeError: cannot read includes of undefined deprecatedVersions"
        | some deprecatedList =>
          if deprecatedList.contains currentVersion then .ok .deprecated
          else .ok .allowed

/-- The `VersionCheckResult` interface of the source (its `config` field is
the resolved runtime policy value). -/
structure VersionCheckResult where
  status : Status
  config : DynConfig
  userVersion : String
  isOffline : Bool
  cacheAge : Int
deriving DecidableEq, Repr

/-- One invocation's environment: cache-file state, network outcome, the
`Date.now()` reading during the call, the host app version (`none` =
unavailable), the controller's construction-time clock reading (stamped into
the fallback policy), and whether a cache write would succeed. -/
structure Env where
  cacheFile : CacheFileState
  fetchOutcome : FetchOutcome
  now : Int
  hostVersion : Option String
  constructedAt : Int
  writeSucceeds : Bool
deriving DecidableEq, Repr

/-- `VersionController.checkVersionStatus`: fetch, cache on success, fall
back to the cached record (or hardcoded fallback) on failure, then determine
the status. Returns the result (or the uncaught exception escaping the call,
as `Except.error`) together with the cache file's state after the call. -/
def checkVersionStatus (env : Env) : Except String VersionCheckResult × CacheFileState :=
  let currentVersion := getCurrentVersion env.hostVersion
  match fetchConfigWithTimeout env.fetchOutcome env.now with
  | .ok config =>
    let cacheAfter := cacheConfig config env.now env.writeSucceeds env.cacheFile
    match determineVersionStatus currentVersion config false 0 with
    | .ok status => (.ok ⟨status, config, currentVersion, false, 0⟩, cacheAfter)
    | .error e => (.error e, cacheAfter)
  | .error _ =>
    let cachedData := getCachedConfig env.cacheFile (toDyn (fallbackConfig env.constructedAt)) env.now
    let cacheAge := env.now - cachedData.lastFetched.getD 0
    match cachedData.config with
    | some config =>
      match determineVersionStatus currentVersion config true cacheAge with
      | .ok status => (.ok ⟨status, config, currentVersion, true, cacheAge⟩, env.cacheFile)
      | .error e => (.error e, env.cacheFile)
    | none => (.error "TypeError: cannot read properties of undefined config", env.cacheFile)

/-- `VersionController.shouldCheckForUpdates`: read the cache (falling back
as `getCachedConfig` does, with clock reading `tRead`) and report whether its
age at clock reading `tNow` exceeds one hour. -/
def shouldCheckForUpdates (s : CacheFileState) (fallback : DynConfig)
    (tRead tNow : Int) : Bool :=
  let cached := getCachedConfig s fallback tRead
  decide (tNow - cached.lastFetched.getD 0 > 60 * 60 * 1000)

/-- A cache-file state holding no usable record: absent, unreadable, not
JSON, or parsed to a record missing `config` or `lastFetched`. -/
def cacheInvalid (s : CacheFileState) : Prop :=
  s = .absent ∨ s = .unreadable ∨ s = .notJson ∨
    ∃ r, s = .parsed r ∧ (r.config = none ∨ r.lastFetched = none)

/-- The status-determination rules exactly as the specification words them:
a priority list over a well-typed policy, first match wins. -/
def specStatusRules (currentVersion : String) (config : VersionConfig)
    (isOffline : Bool) (cacheAge : Int) : Status :=
  if isOffline ∧ cacheAge > 6 * 60 * 60 * 1000 then .allowed
  else if config.isKillSwitchActive ∧ ¬ isOffline then .blocked
  else if currentVersion ∈ config.forceUpdateVersions then
    if isOffline ∧ cacheAge > 60 * 60 * 1000 then .deprecated else .force_update
  else if isVersionBelow currentVersion config.minimumVersion then
    if isOffline then .deprecated else .blocked
  else if currentVersion ∈ config.deprecatedVersions then .deprecated
  else .allowed

/-! ## Helper lemmas -/

/-- The unrolled three-step comparison loop computes strict lexicographic
order on the component triples. -/
theorem chain_eq_lexLtB (c0 c1 c2 m0 m1 m2 : Int) :
    (if c0 < m0 then true
     else if c0 > m0 then false
     else if c1 < m1 then true
     else if c1 > m1 then false
     else if c2 < m2 then true
     else if c2 > m2 then false
     else false) = lexLtB (c0, c1, c2) (m0, m1, m2) := by
  simp only [lexLtB]
  rcases lt_trichotomy c0 m0 with h0 | h0 | h0 <;>
    rcases lt_trichotomy c1 m1 with h1 | h1 | h1 <;>
      rcases lt_trichotomy c2 m2 with h2 | h2 | h2 <;>
        simp [h0, h1, h2] <;> omega

/-- `isVersionBelow` is strict lexicographic comparison of the parsed
triples. -/
theorem isVersionBelow_eq_lexLtB (a b : String) :
    isVersionBelow a b = lexLtB (versionTriple a) (versionTriple b) :=
  chain_eq_lexLtB _ _ _ _ _ _

/-- `isVersionNewer` is strict lexicographic comparison of the parsed
triples, in the opposite orientation. -/
theorem isVersionNewer_eq_lexLtB (remote local_ : String) :
    isVersionNewer remote local_ = lexLtB (versionTriple local_) (versionTriple remote) :=
  chain_eq_lexLtB _ _ _ _ _ _

/-- Every component of a version string whose dot-split pieces all coerce to
`NaN` defaults to `0`. -/
theorem versionTriple_eq_zero_of_unparsable (s : String)
    (hs : ∀ p ∈ jsSplitDot s, jsNumberOpt p = none) :
    versionTriple s = (0, 0, 0) := by
  have hpart : ∀ i, partOr0 (versionParts s) i = 0 := by
    intro i
    unfold partOr0 versionParts
    rw [List.get?_map]
    cases h : (jsSplitDot s).get? i with
    | none => rfl
    | some p => simp [Option.join, hs p (List.get?_mem h)]
  unfold versionTriple
  rw [hpart 0, hpart 1, hpart 2]

/-- A non-empty digit run coerces to its (non-negative) decimal value. -/
theorem jsNumberOpt_of_digitString (s : String) (h : isDigitString s = true) :
    jsNumberOpt s = some ((digitsToNat s.toList : Int)) := by
  simp only [isDigitString, Bool.and_eq_true, decide_eq_true_eq] at h
  obtain ⟨h1, h2⟩ := h
  simp only [jsNumberOpt]
  rw [if_neg h1, if_pos h2]

/-- A string passing the strict `MAJOR.MINOR.PATCH` format check parses to a
triple of natural-number (hence non-negative) components. -/
theorem versionTriple_natCast_of_valid (m : String) (h : isValidVersionFormat m = true) :
    ∃ n0 n1 n2 : Nat, versionTriple m = ((n0 : Int), (n1 : Int), (n2 : Int)) := by
  unfold isValidVersionFormat at h
  rcases hsp : jsSplitDot m with _ | ⟨a, _ | ⟨b, _ | ⟨c, _ | _⟩⟩⟩ <;>
    rw [hsp] at h <;> simp only [Bool.and_eq_true] at h
  · cases h
  · cases h
  · cases h
  · obtain ⟨⟨ha, hb⟩, hc⟩ := h
    refine ⟨digitsToNat a.toList, digitsToNat b.toList, digitsToNat c.toList, ?_⟩
    simp [versionTriple, versionParts, partOr0, hsp, List.get?, Option.join,
      jsNumberOpt_of_digitString a ha, jsNumberOpt_of_digitString b hb,
      jsNumberOpt_of_digitString c hc]
  · cases h

/-- Reading an unusable cache always produces the fallback record stamped
with the read-time clock and the offline marker. -/
theorem getCachedConfig_of_invalid (s : CacheFileState) (fallback : DynConfig) (now : Int)
    (h : cacheInvalid s) :
    getCachedConfig s fallback now = ⟨some fallback, some now, some true⟩ := by
  rcases h with h | h | h | ⟨r, hr, hc⟩
  · subst h; rfl
  · subst h; rfl
  · subst h; rfl
  · subst hr
    rcases hc with hc | hc <;>
      simp [getCachedConfig, truthyConfig, truthyInt, hc]

/-! ## Claims -/

/-- The fetched JSON body that witnesses the C1 code bug: all five required
fields are present and well-formed, but `deprecatedVersions` and
`forceUpdateVersions` are absent, which `validateConfig` does not check. -/
def c1FetchedBody : DynConfig :=
  ⟨some "1.0.0", some "1.0.0", some false, none, none,
   some "Please update", some "https://example.com/download", none, none⟩

/-- The C1 environment: network fetch succeeds with `c1FetchedBody`. -/
def c1Env : Env := ⟨.absent, .success c1FetchedBody, 1000, some "1.0.0", 0, true⟩

/-- C1: the claim (and the spec's never-throws contract) fail on the code.
A fetched body that passes `validateConfig` but lacks the
`forceUpdateVersions` array makes `determineVersionStatus` — called outside
the `try/catch` of `checkVersionStatus` — evaluate
`config.forceUpdateVersions.includes(...)`, raising a `TypeError` that
escapes `checkVersionStatus` as a rejection. -/
theorem checkVersionStatus_throws_on_missing_arrays :
    (checkVersionStatus c1Env).1 =
      Except.error "TypeError: cannot read includes of undefined forceUpdateVersions" := by
  decide

/-- A fetched policy document whose `deprecatedVersions` and
`forceUpdateVersions` entries are not `MAJOR.MINOR.PATCH` triples. -/
def c2BadDocument : DynConfig :=
  ⟨some "1.0.0", some "1.2.0", some false, some ["totally-not-a-version"],
   some ["also bad entry"], some "Please update", some "https://example.com/download",
   none, none⟩

/-- C2 counterexample: a document whose list entries fail the version format
is nonetheless accepted — `validateConfig` succeeds and the fetch pipeline
treats the document as a successful fetch, contradicting the claim that such
a document is rejected in its entirety. -/
theorem validateConfig_accepts_malformed_entries :
    isValidVersionFormat "totally-not-a-version" = false ∧
    validateConfig c2BadDocument = Except.ok () ∧
    fetchConfigWithTimeout (.success c2BadDocument) 1000 =
      Except.ok { c2BadDocument with lastUpdated := some 1000 } := by
  decide

/-- C2 amended: validation inspects only the five required fields and the
format of `minimumVersion` and `latestVersion`; the `deprecatedVersions` and
`forceUpdateVersions` lists are never inspected, so replacing them by
arbitrary values (including malformed entries, or removing them) cannot
change the validation verdict. -/
theorem validateConfig_ignores_version_lists (config : DynConfig)
    (ds fs : Option (List String)) :
    validateConfig { config with deprecatedVersions := ds, forceUpdateVersions := fs } =
      validateConfig config := rfl

/-- C3: on every well-typed policy, `determineVersionStatus` returns (without
raising) exactly the first matching rule of the specification's priority
list: (1) offline with cache older than 6 hours ⇒ allowed; (2) kill switch
while online ⇒ blocked; (3) force-update membership ⇒ deprecated when
offline past the 1-hour grace period, else force_update; (4) below the
minimum version ⇒ deprecated when offline, else blocked; (5) deprecated
membership ⇒ deprecated; (6) otherwise allowed. -/
theorem determineVersionStatus_priority (v : String) (c : VersionConfig)
    (off : Bool) (age : Int) :
    determineVersionStatus v (toDyn c) off age = .ok (specStatusRules v c off age) := by
  by_cases hFu : v ∈ c.forceUpdateVersions <;>
    by_cases hDep : v ∈ c.deprecatedVersions <;>
      simp [determineVersionStatus, specStatusRules, toDyn, isVersionBelowOpt,
        List.contains, List.elem_iff, hFu, hDep, apply_ite Except.ok]

/-- C4: while offline, no runtime policy value — not even one with the kill
switch active or an arbitrarily low minimum version — can make
`determineVersionStatus` return `blocked`. -/
theorem determineVersionStatus_offline_never_blocked (v : String) (config : DynConfig)
    (age : Int) :
    determineVersionStatus v config true age ≠ Except.ok Status.blocked := by
  rcases hf : config.forceUpdateVersions with _ | fuv <;>
    rcases hd : config.deprecatedVersions with _ | dv <;>
      simp [determineVersionStatus, hf, hd] <;>
        split_ifs <;> simp_all

/-- C5: a version string all of whose dot-split components coerce to `NaN`
is treated as `0.0.0`, hence is strictly below every well-formed minimum
other than `0.0.0`. -/
theorem isVersionBelow_unparsable (s m : String)
    (hs : ∀ p ∈ jsSplitDot s, jsNumberOpt p = none)
    (hm : isValidVersionFormat m = true)
    (hm0 : versionTriple m ≠ (0, 0, 0)) :
    isVersionBelow s m = true := by
  rw [isVersionBelow_eq_lexLtB, versionTriple_eq_zero_of_unparsable s hs]
  obtain ⟨n0, n1, n2, ht⟩ := versionTriple_natCast_of_valid m hm
  rw [ht] at hm0 ⊢
  simp only [lexLtB, decide_eq_true_eq, Prod.mk.injEq, ne_eq, not_and] at hm0 ⊢
  omega

/-- Witness for C5 at the spec's own example input. -/
theorem isVersionBelow_unparsable_witness :
    (∀ p ∈ jsSplitDot "invalid", jsNumberOpt p = none) ∧
    isValidVersionFormat "1.0.0" = true ∧
    versionTriple "1.0.0" ≠ (0, 0, 0) ∧
    isVersionBelow "invalid" "1.0.0" = true :=
  ⟨by decide, by decide, by decide,
    isVersionBelow_unparsable "invalid" "1.0.0" (by decide) (by decide) (by decide)⟩

/-- C6: on every pair of input strings — empty, non-numeric and wrong-arity
ones included — both comparison helpers return the strict lexicographic
comparison of the parsed 3-tuples with missing or non-numeric components
defaulted to 0 (totality of the embedded functions reflects that the source
bodies cannot raise). -/
theorem versionComparisons_lexicographic (a b : String) :
    isVersionBelow a b = lexLtB (versionTriple a) (versionTriple b) ∧
    isVersionNewer a b = lexLtB (versionTriple b) (versionTriple a) :=
  ⟨isVersionBelow_eq_lexLtB a b, isVersionNewer_eq_lexLtB a b⟩

/-- C7: persisting a well-typed policy with `cacheConfig` (write succeeding)
and reading it back with `getCachedConfig` yields the very record written:
the same policy, `lastFetched` equal to the write-time clock, and
`isOfflineMode = false`. The clock must be nonzero because a zero
`lastFetched` is falsy in the source's cache-validity check. -/
theorem cache_roundtrip (policy : VersionConfig) (s : CacheFileState)
    (t0 now now2 : Int) (h : now ≠ 0) :
    getCachedConfig (cacheConfig (toDyn policy) now true s) (toDyn (fallbackConfig t0)) now2 =
      ⟨some (toDyn policy), some now, some false⟩ := by
  simp [cacheConfig, getCachedConfig, truthyConfig, truthyInt, h]

/-- Witness for C7 with the fallback policy written at time 5. -/
theorem cache_roundtrip_witness :
    (5 : Int) ≠ 0 ∧
    getCachedConfig (cacheConfig (toDyn (fallbackConfig 0)) 5 true .absent)
        (toDyn (fallbackConfig 0)) 9 =
      ⟨some (toDyn (fallbackConfig 0)), some 5, some false⟩ :=
  ⟨by decide, cache_roundtrip (fallbackConfig 0) .absent 0 5 9 (by decide)⟩

/-- C8: whenever the cache file is absent, unreadable, not JSON, or parses
to a record missing `config` or `lastFetched`, `getCachedConfig` returns
(never throws) the hardcoded fallback policy with `isOfflineMode = true` —
corruption behaves exactly like having no cache. -/
theorem getCachedConfig_fallback_on_invalid (s : CacheFileState) (t0 now : Int)
    (h : cacheInvalid s) :
    getCachedConfig s (toDyn (fallbackConfig t0)) now =
      ⟨some (toDyn (fallbackConfig t0)), some now, some true⟩ :=
  getCachedConfig_of_invalid s (toDyn (fallbackConfig t0)) now h

/-- Witness for C8 at a corrupt (non-JSON) cache file. -/
theorem getCachedConfig_fallback_on_invalid_witness :
    cacheInvalid .notJson ∧
    getCachedConfig .notJson (toDyn (fallbackConfig 0)) 3 =
      ⟨some (toDyn (fallbackConfig 0)), some 3, some true⟩ :=
  ⟨Or.inr (Or.inr (Or.inl rfl)),
    getCachedConfig_fallback_on_invalid .notJson 0 3 (Or.inr (Or.inr (Or.inl rfl)))⟩

/-- C9: two `checkVersionStatus` invocations over the same cache contents,
network outcome, clock reading, host version and construction time return
the same result even when their cache-write outcomes differ, and the call's
only effect on the cache file is the overwrite performed on a successful
fetch (a failed fetch leaves the file untouched). -/
theorem checkVersionStatus_deterministic (c : CacheFileState) (f : FetchOutcome)
    (n : Int) (v : Option String) (t : Int) (w1 w2 : Bool) :
    (checkVersionStatus ⟨c, f, n, v, t, w1⟩).1 = (checkVersionStatus ⟨c, f, n, v, t, w2⟩).1 ∧
    (checkVersionStatus ⟨c, f, n, v, t, w1⟩).2 =
      (match fetchConfigWithTimeout f n with
       | .ok config => cacheConfig config n w1 c
       | .error _ => c) := by
  unfold checkVersionStatus
  rcases hf : fetchConfigWithTimeout f n with e | cfg <;> simp only [hf]
  · refine ⟨trivial, ?_⟩
    split
    · split <;> rfl
    · rfl
  · refine ⟨?_, ?_⟩ <;> split <;> rfl

/-- C10: with no cache file (or an unusable one), the fallback record is
stamped with the read-time clock, so as long as the second clock reading is
at most one hour after the first, `shouldCheckForUpdates` reports `false`
even though no fetch ever succeeded. -/
theorem shouldCheckForUpdates_false_without_cache (s : CacheFileState)
    (fallback : DynConfig) (tRead tNow : Int) (h : cacheInvalid s)
    (h1 : tRead ≤ tNow) (h2 : tNow - tRead ≤ 60 * 60 * 1000) :
    shouldCheckForUpdates s fallback tRead tNow = false := by
  unfold shouldCheckForUpdates
  rw [getCachedConfig_of_invalid s fallback tRead h]
  simp only [Option.getD_some, decide_eq_false_iff_not]
  omega

/-- Witness for C10 at an absent cache file and clock readings 100 and 200. -/
theorem shouldCheckForUpdates_false_without_cache_witness :
    cacheInvalid .absent ∧ (100 : Int) ≤ 200 ∧ (200 : Int) - 100 ≤ 60 * 60 * 1000 ∧
    shouldCheckForUpdates .absent (toDyn (fallbackConfig 0)) 100 200 = false :=
  ⟨Or.inl rfl, by decide, by decide,
    shouldCheckForUpdates_false_without_cache .absent (toDyn (fallbackConfig 0)) 100 200
      (Or.inl rfl) (by decide) (by decide)⟩

end SayaLens
